import Mathlib

/-
  Verification development for the SRM damage-assessment engine
  (seed_rules.py, including the appended rules_engine.py section).

  The embedding is a direct translation of the Python source:
  machine floats become rationals, SQLite rows become Lean structures,
  the rules/rule_sets relations become lists, and exceptions raised by
  the Python runtime (json.JSONDecodeError, TypeError) become
  `Except.error` values.
-/

namespace SRM

/-! ## Values and damage contexts -/

/-- A scalar value occurring in a damage context or a condition clause. -/
inductive Value where
  | vStr (s : String)
  | vNum (q : ℚ)
  | vBool (b : Bool)
deriving DecidableEq, Repr

/-- The damage context dictionary, restricted to the dotted paths the
engine reads (`_get(ctx, "damage.type")` and friends).  `none` models an
absent key, `some` a present value. -/
structure Ctx where
  damage_type : Option String := none
  damage_structure : Option String := none
  zone : Option String := none
  side : Option String := none
  pressurized : Option Bool := none
  sta : Option ℚ := none
  wl : Option ℚ := none
  stringer_num : Option ℚ := none
  diameter_mm : Option ℚ := none
  depth_mm : Option ℚ := none
  depth_to_thickness_ratio : Option ℚ := none
  visible_crack : Option Bool := none
  near_fastener_row : Option Bool := none
deriving DecidableEq, Repr

/-- The helper `_get(ctx, path)`: resolving a dotted path through the context
dictionary; an unknown path yields `None`. -/
def ctxGet (ctx : Ctx) (path : String) : Option Value :=
  if path = "damage.type" then ctx.damage_type.map .vStr
  else if path = "damage.structure" then ctx.damage_structure.map .vStr
  else if path = "location.zone" then ctx.zone.map .vStr
  else if path = "location.side" then ctx.side.map .vStr
  else if path = "location.pressurized" then ctx.pressurized.map .vBool
  else if path = "location.sta" then ctx.sta.map .vNum
  else if path = "location.wl" then ctx.wl.map .vNum
  else if path = "location.stringer_num" then ctx.stringer_num.map .vNum
  else if path = "damage.diameter_mm" then ctx.diameter_mm.map .vNum
  else if path = "damage.depth_mm" then ctx.depth_mm.map .vNum
  else if path = "damage.depth_to_thickness_ratio" then ctx.depth_to_thickness_ratio.map .vNum
  else if path = "damage.visible_crack" then ctx.visible_crack.map .vBool
  else if path = "damage.near_fastener_row" then ctx.near_fastener_row.map .vBool
  else none

/-- Python truthiness of an optional string (`None` and `""` are falsy). -/
def truthyStr : Option String → Bool
  | none => false
  | some s => s ≠ ""

/-- Python truthiness of an optional bool (`bool(x)`). -/
def truthyBool : Option Bool → Bool
  | none => false
  | some b => b

/-- Python `x or default` on an optional string. -/
def pyOrStr (o : Option String) (d : String) : String :=
  match o with
  | none => d
  | some s => if s = "" then d else s

/-! ## Rule documents (the JSON payload columns) -/

/-- A clause of a `deny_if`/`allow_if` list: `{field, op, value}` with
every key optional (`cl.get(...)`). -/
structure Clause where
  field : Option String := none
  op : Option String := none
  value : Option Value := none
deriving DecidableEq, Repr

/-- The `conditions` document vocabulary used by `_eval_conditions`. -/
structure Conditions where
  requires_no_visible_crack : Bool := false
  deny_if : List Clause := []
  allow_if : List Clause := []
deriving DecidableEq, Repr

/-- The `limits` document vocabulary used by `_eval_limits`.  A key that
is absent from the JSON object is `none`. -/
structure Limits where
  max_diameter_mm : Option ℚ := none
  max_depth_mm : Option ℚ := none
  max_depth_to_thickness_ratio : Option ℚ := none
deriving DecidableEq, Repr

/-- The `actions` document: an open object of which the engine reads
`disposition`; `next_steps` appears in the hard-coded escalation
results. -/
structure Actions where
  disposition : Option String := none
  next_steps : Option (List String) := none
deriving DecidableEq, Repr

/-- The TEXT stored in a `*_json` column: SQL NULL or the empty string
(falsy, so `row[col] or "{}"` substitutes `"{}"`), well-formed JSON text
denoting `doc`, or non-empty text that `json.loads` cannot parse. -/
inductive Stored (α : Type) where
  | nullOrEmpty : Stored α
  | valid (doc : α) : Stored α
  | malformed : Stored α
deriving DecidableEq, Repr

/-- The read `json.loads(row[col] or "{}")`: the falsy fallback yields the empty
document, valid text parses, malformed text raises. -/
def loads {α : Type} (empty : α) : Stored α → Except String α
  | .nullOrEmpty => .ok empty
  | .valid d => .ok d
  | .malformed => .error "json.JSONDecodeError"

/-! ## Database rows -/

/-- A row of the `rule_sets` relation. -/
structure RuleSetRow where
  id : Int
  name : String
  aircraft_family : String
  revision : String
  effective_date : Option String := none
  source : Option String := none
deriving DecidableEq, Repr

/-- A row of the `rules` relation (`structure_` renders the SQL column
`structure`, which is a reserved word in Lean). -/
structure RuleRow where
  id : Int
  rule_set_id : Int
  enabled : Int := 1
  priority : Int := 0
  damage_type : String
  structure_ : String
  structure_zone : String
  zone_detail : Option String := none
  side : String := "ANY"
  sta_min : Option ℚ := none
  sta_max : Option ℚ := none
  wl_min : Option ℚ := none
  wl_max : Option ℚ := none
  stringer_min : Option ℚ := none
  stringer_max : Option ℚ := none
  pressurized : Option Int := none
  material : Option String := none
  conditions_json : Stored Conditions := .nullOrEmpty
  limits_json : Stored Limits := .nullOrEmpty
  actions_json : Stored Actions := .nullOrEmpty
  srm_ref : Option String := none
  severity : Option String := some "engineering"
  notes : Option String := none
  source_page : Option String := none
deriving DecidableEq, Repr

/-- The SQLite database: the two relations plus the AUTOINCREMENT
counters that hand out fresh primary keys. -/
structure DB where
  rule_sets : List RuleSetRow := []
  rules : List RuleRow := []
  next_rule_set_id : Int := 1
  next_rule_id : Int := 1
deriving DecidableEq, Repr

/-- The engine output dataclass. -/
structure AssessmentResult where
  rule_id : Option Int
  passed : Bool
  disposition : String
  severity : String
  srm_ref : Option String
  reasons : List String
  actions : Actions
deriving DecidableEq, Repr

/-! ## Range and condition evaluation -/

/-- The helper `_within_range(val, minv, maxv)` from rules_engine.py. -/
def _within_range (val minv maxv : Option ℚ) : Bool :=
  match val with
  | none => true
  | some v =>
    if (match minv with | some m => decide (v < m) | none => false) then false
    else if (match maxv with | some m => decide (v > m) | none => false) then false
    else true

/-- The inline stringer filter of the candidate loop: an absent context
stringer skips the check; otherwise each set bound is compared. -/
def stringerPass (stringer mn mx : Option ℚ) : Bool :=
  match stringer with
  | none => true
  | some s =>
    if (match mn with | some m => decide (s < m) | none => false) then false
    else if (match mx with | some m => decide (s > m) | none => false) then false
    else true

/-- Python `==` between context values and clause literals
(`True == 1` holds, values of unrelated types compare unequal). -/
def pyEqVal : Value → Value → Bool
  | .vStr a, .vStr b => a = b
  | .vNum a, .vNum b => a = b
  | .vBool a, .vBool b => a = b
  | .vBool a, .vNum b => (if a then (1 : ℚ) else 0) = b
  | .vNum a, .vBool b => a = (if b then (1 : ℚ) else 0)
  | _, _ => false

/-- Python `==` lifted to optional values (`None == None` holds). -/
def pyEqOpt : Option Value → Option Value → Bool
  | none, none => true
  | some a, some b => pyEqVal a b
  | _, _ => false

/-- Numeric view for Python order comparisons (bools compare as 0/1). -/
def toRatCmp : Value → Option ℚ
  | .vNum q => some q
  | .vBool b => some (if b then 1 else 0)
  | .vStr _ => none

/-- Three-way comparison used by `<`, `<=`, `>`, `>=`; incomparable
types raise `TypeError`. -/
def pyCmp (a b : Value) : Except String Ordering :=
  match a, b with
  | .vStr x, .vStr y =>
    .ok (if x < y then .lt else if x = y then .eq else .gt)
  | _, _ =>
    match toRatCmp a, toRatCmp b with
    | some x, some y => .ok (if x < y then .lt else if x = y then .eq else .gt)
    | _, _ => .error "TypeError"

/-- Comparison `actual is not None and actual OP value`: a `None` actual fails the
comparison closed; a `None` literal (or incomparable types) raises. -/
def ordCheck (actual value : Option Value) (p : Ordering → Bool) : Except String Bool :=
  match actual with
  | none => .ok false
  | some a =>
    match value with
    | none => .error "TypeError"
    | some b => do
      let o ← pyCmp a b
      .ok (p o)

/-- The inner `check_clause` of `_eval_conditions`. -/
def check_clause (ctx : Ctx) (cl : Clause) : Except String Bool :=
  let actual := match cl.field with
    | some f => ctxGet ctx f
    | none => none
  match cl.op with
  | some "==" => .ok (pyEqOpt actual cl.value)
  | some "!=" => .ok (!pyEqOpt actual cl.value)
  | some "<=" => ordCheck actual cl.value (fun o => !(o = .gt))
  | some "<" => ordCheck actual cl.value (fun o => o = .lt)
  | some ">=" => ordCheck actual cl.value (fun o => !(o = .lt))
  | some ">" => ordCheck actual cl.value (fun o => o = .gt)
  | _ => .ok false

/-- First `deny_if` clause that evaluates true (the loop short-circuits
and reports that clause). -/
def scanDeny (ctx : Ctx) : List Clause → Except String (Option Clause)
  | [] => .ok none
  | cl :: rest => do
    if (← check_clause ctx cl) then .ok (some cl) else scanDeny ctx rest

/-- First `allow_if` clause that evaluates false. -/
def scanAllow (ctx : Ctx) : List Clause → Except String (Option Clause)
  | [] => .ok none
  | cl :: rest => do
    if (← check_clause ctx cl) then scanAllow ctx rest else .ok (some cl)

/-- Rendering of a clause inside a reason message (the f-string prints
the clause dict; the exact layout is presentational only). -/
def clauseText (cl : Clause) : String :=
  "(field=" ++ (match cl.field with | some f => f | none => "None") ++
  ", op=" ++ (match cl.op with | some o => o | none => "None") ++
  ", value=" ++ (match cl.value with
                 | some (.vStr s) => s
                 | some (.vNum q) => toString q
                 | some (.vBool b) => toString b
                 | none => "None") ++ ")"

/-- The evaluator `_eval_conditions(conditions, ctx, reasons)`: returns the
eligibility flag together with the (appended-to) reasons list. -/
def _eval_conditions (conditions : Conditions) (ctx : Ctx) (reasons : List String) :
    Except String (Bool × List String) :=
  if conditions.requires_no_visible_crack && truthyBool ctx.visible_crack then
    .ok (false, reasons ++ ["Condition failed: visible crack present."])
  else do
    match (← scanDeny ctx conditions.deny_if) with
    | some cl => .ok (false, reasons ++ ["Denied by condition: " ++ clauseText cl])
    | none =>
      match (← scanAllow ctx conditions.allow_if) with
      | some cl => .ok (false, reasons ++ ["Allow-if condition not met: " ++ clauseText cl])
      | none => .ok (true, reasons)

/-! ## Limit evaluation -/

/-- Reason emitted when the diameter exceeds its limit. -/
def diameterMsg (d lim : ℚ) : String :=
  "Diameter " ++ toString d ++ "mm > limit " ++ toString lim ++ "mm"

/-- Reason emitted when the depth exceeds its limit. -/
def depthMsg (d lim : ℚ) : String :=
  "Depth " ++ toString d ++ "mm > limit " ++ toString lim ++ "mm"

/-- Reason emitted when the depth/thickness ratio exceeds its limit. -/
def ratioMsg (ratio lim : ℚ) : String :=
  "Ratio " ++ toString ratio ++ " > limit " ++ toString lim

/-- Reason emitted when the ratio limit is configured but the context
does not provide a ratio. -/
def ratioMissingMsg : String :=
  "Depth/thickness ratio not provided (needed for this rule)."

/-- The `max_diameter_mm` block of `_eval_limits`: only runs when the
limit key is present AND the context diameter is not `None`. -/
def diaCheck (limits : Limits) (ctx : Ctx) : Bool × List String → Bool × List String
  | (ok, reasons) =>
    match limits.max_diameter_mm, ctx.diameter_mm with
    | some lim, some d =>
      if d > lim then (false, reasons ++ [diameterMsg d lim]) else (ok, reasons)
    | _, _ => (ok, reasons)

/-- The `max_depth_mm` block of `_eval_limits`. -/
def depthCheck (limits : Limits) (ctx : Ctx) : Bool × List String → Bool × List String
  | (ok, reasons) =>
    match limits.max_depth_mm, ctx.depth_mm with
    | some lim, some d =>
      if d > lim then (false, reasons ++ [depthMsg d lim]) else (ok, reasons)
    | _, _ => (ok, reasons)

/-- The `max_depth_to_thickness_ratio` block: runs whenever the limit
key is present; a missing context ratio is a failure of its own. -/
def ratioCheck (limits : Limits) (ctx : Ctx) : Bool × List String → Bool × List String
  | (ok, reasons) =>
    match limits.max_depth_to_thickness_ratio with
    | none => (ok, reasons)
    | some lim =>
      match ctx.depth_to_thickness_ratio with
      | none => (false, reasons ++ [ratioMissingMsg])
      | some r =>
        if r > lim then (false, reasons ++ [ratioMsg r lim]) else (ok, reasons)

/-- The evaluator `_eval_limits(limits, ctx, reasons)`: the three independent blocks
run in source order, each appending its reasons; no short-circuit. -/
def _eval_limits (limits : Limits) (ctx : Ctx) (reasons : List String) :
    Bool × List String :=
  ratioCheck limits ctx (depthCheck limits ctx (diaCheck limits ctx (true, reasons)))

/-! ## The assessment entry point -/

/-- The hard-coded result for a context missing its classification. -/
def missingClassificationResult : AssessmentResult :=
  { rule_id := none, passed := false, disposition := "ENGINEERING_REVIEW",
    severity := "engineering", srm_ref := none,
    reasons := ["Missing required classification (damage.type / damage.structure / location.zone)."],
    actions := { disposition := some "ENGINEERING_REVIEW",
                 next_steps := some ["Provide missing details."] } }

/-- The hard-coded result when no rule set exists for the family. -/
def noRuleSetResult (aircraft_family : String) : AssessmentResult :=
  { rule_id := none, passed := false, disposition := "ENGINEERING_REVIEW",
    severity := "engineering", srm_ref := none,
    reasons := ["No rule_set found for aircraft_family=" ++ aircraft_family ++ "."],
    actions := { disposition := some "ENGINEERING_REVIEW",
                 next_steps := some ["Seed rules.db into repo."] } }

/-- The hard-coded result when the SQL query returns no candidate rows. -/
def noMatchResult : AssessmentResult :=
  { rule_id := none, passed := false, disposition := "ENGINEERING_REVIEW",
    severity := "engineering", srm_ref := none,
    reasons := ["No matching rules found; escalate to engineering."],
    actions := { disposition := some "ENGINEERING_REVIEW",
                 next_steps := some ["Add rules for this case."] } }

/-- The hard-coded result when candidates existed but every one was
filtered or conditions-rejected and none reached a limit verdict. -/
def noApplicableResult : AssessmentResult :=
  { rule_id := none, passed := false, disposition := "ENGINEERING_REVIEW",
    severity := "engineering", srm_ref := none,
    reasons := ["No applicable rule after filtering; escalate to engineering."],
    actions := { disposition := some "ENGINEERING_REVIEW",
                 next_steps := some ["Capture more location detail."] } }

/-- SQL `ORDER BY id DESC LIMIT 1` over a list of rule-set rows. -/
def maxIdRow : List RuleSetRow → Option RuleSetRow
  | [] => none
  | r :: rest =>
    match maxIdRow rest with
    | none => some r
    | some best => if r.id > best.id then some r else some best

/-- The rule-set lookup of `assess_damage`: filter by family (and by
revision when `if revision:` is truthy), newest id wins. -/
def lookup_rule_set (db : DB) (aircraft_family : String) (revision : Option String) :
    Option Int :=
  let matched :=
    if truthyStr revision then
      db.rule_sets.filter
        (fun r => r.aircraft_family == aircraft_family && some r.revision == revision)
    else
      db.rule_sets.filter (fun r => r.aircraft_family == aircraft_family)
  (maxIdRow matched).map (fun r => r.id)

/-- SQL `(side = ANY OR side = ?)` of the candidate query: the ROW side is the
wildcard position; the context side is compared literally. -/
def sideMatch (rowSide ctxSide : String) : Bool :=
  rowSide == "ANY" || rowSide == ctxSide

/-- SQL `(pressurized IS NULL OR pressurized = ? OR ? IS NULL)`. -/
def pressMatch (rowPress press_i : Option Int) : Bool :=
  rowPress == none || press_i == none || rowPress == press_i

/-- The WHERE clause of the candidate query. -/
def rowFilter (rule_set_id : Int) (dmg_type zone structure_ ctxSide : String)
    (press_i : Option Int) (row : RuleRow) : Bool :=
  row.rule_set_id == rule_set_id && row.enabled == 1 &&
  row.damage_type == dmg_type && row.structure_zone == zone &&
  row.structure_ == structure_ &&
  sideMatch row.side ctxSide && pressMatch row.pressurized press_i

/-- The candidate filter with its parameters drawn from the context the
way `assess_damage` binds them (side defaulting to `"ANY"`, pressurized
coerced to 0/1).  Under the classification guard, `getD ""` is exactly
the string value bound in the query. -/
def ctxFilter (rule_set_id : Int) (ctx : Ctx) : RuleRow → Bool :=
  rowFilter rule_set_id (ctx.damage_type.getD "") (ctx.zone.getD "")
    (ctx.damage_structure.getD "") (pyOrStr ctx.side "ANY")
    (ctx.pressurized.map (fun b => if b then (1 : Int) else 0))

/-- SQL `ORDER BY priority DESC, id ASC` as a sorting relation. -/
def ruleLE (a b : RuleRow) : Prop :=
  b.priority < a.priority ∨ (a.priority = b.priority ∧ a.id ≤ b.id)

instance : DecidableRel ruleLE := fun a b => by unfold ruleLE; exact inferInstance

/-- The ordered candidate list. -/
def sortRules (l : List RuleRow) : List RuleRow :=
  List.insertionSort ruleLE l

/-- The state of the candidate loop: an early `return` inside the loop
(`done`), or still scanning with the recorded `best_fail`. -/
inductive ScanState where
  | done (r : AssessmentResult)
  | scanning (best_fail : Option AssessmentResult)
deriving DecidableEq, Repr

/-- The result returned when a rule passes its limits. -/
def passResult (row : RuleRow) (actions : Actions) (reasons : List String) :
    AssessmentResult :=
  { rule_id := some row.id, passed := true,
    disposition := actions.disposition.getD "ALLOW_AS_IS",
    severity := pyOrStr row.severity "allow",
    srm_ref := row.srm_ref,
    reasons := if reasons.isEmpty then ["Within limits."] else reasons,
    actions := actions }

/-- The result recorded as `best_fail` when a rule fails its limits. -/
def failResult (row : RuleRow) (actions : Actions) (reasons : List String) :
    AssessmentResult :=
  { rule_id := some row.id, passed := false,
    disposition := actions.disposition.getD "ENGINEERING_REVIEW",
    severity := pyOrStr row.severity "engineering",
    srm_ref := row.srm_ref,
    reasons := if reasons.isEmpty then ["Out of limits."] else reasons,
    actions := actions }

/-- The three range filters of the candidate loop taken together (a rule
survives them exactly when none of the `continue` branches triggers). -/
def rangePass (ctx : Ctx) (row : RuleRow) : Bool :=
  _within_range ctx.sta row.sta_min row.sta_max &&
  _within_range ctx.wl row.wl_min row.wl_max &&
  stringerPass ctx.stringer_num row.stringer_min row.stringer_max

/-- One iteration of the candidate loop of `assess_damage`; an
`Except.error` is an exception propagating out of the loop body
(`json.loads` or a clause comparison). -/
def step (ctx : Ctx) (st : ScanState) (row : RuleRow) : Except String ScanState :=
  match st with
  | .done r => .ok (.done r)
  | .scanning best_fail =>
    if !(_within_range ctx.sta row.sta_min row.sta_max) then .ok (.scanning best_fail)
    else if !(_within_range ctx.wl row.wl_min row.wl_max) then .ok (.scanning best_fail)
    else if !(stringerPass ctx.stringer_num row.stringer_min row.stringer_max) then
      .ok (.scanning best_fail)
    else
      match loads {} row.conditions_json with
      | .error e => .error e
      | .ok conditions =>
        match loads {} row.limits_json with
        | .error e => .error e
        | .ok limits =>
          match loads {} row.actions_json with
          | .error e => .error e
          | .ok actions =>
            match _eval_conditions conditions ctx [] with
            | .error e => .error e
            | .ok c =>
              if !c.1 then .ok (.scanning best_fail)
              else
                let l := _eval_limits limits ctx c.2
                if l.1 then .ok (.done (passResult row actions l.2))
                else
                  match best_fail with
                  | some bf => .ok (.scanning (some bf))
                  | none => .ok (.scanning (some (failResult row actions l.2)))

/-- Leaving the loop: an early return, the recorded `best_fail`, or the
post-filter escalation result. -/
def finishScan : ScanState → AssessmentResult
  | .done r => r
  | .scanning (some bf) => bf
  | .scanning none => noApplicableResult

/-- The entry point `assess_damage(db, aircraft_family, ctx, revision)` from
rules_engine.py.  `Except.error` models an uncaught Python exception. -/
def assess_damage (db : DB) (aircraft_family : String) (ctx : Ctx)
    (revision : Option String) : Except String AssessmentResult :=
  if truthyStr ctx.damage_type && truthyStr ctx.damage_structure && truthyStr ctx.zone then
    match lookup_rule_set db aircraft_family revision with
    | none => .ok (noRuleSetResult aircraft_family)
    | some rule_set_id =>
      match sortRules (db.rules.filter (ctxFilter rule_set_id ctx)) with
      | [] => .ok noMatchResult
      | row :: rest =>
        Except.map finishScan ((row :: rest).foldlM (step ctx) (ScanState.scanning none))
  else .ok missingClassificationResult

/-! ## The seed loader (upsert + wipe path of seed_rules.py) -/

/-- The validated `rule_set` object of a seed document. -/
structure RuleSetSeed where
  name : String
  aircraft_family : String
  revision : String
  effective_date : Option String := none
  source : Option String := none
deriving DecidableEq, Repr

/-- A validated rule entry of a seed document (`RuleSeed` dataclass);
the three documents are serialized by `json.dumps`, hence always valid
stored text. -/
structure RuleSeed where
  enabled : Int := 1
  priority : Int := 0
  damage_type : String
  structure_ : String
  structure_zone : String
  zone_detail : Option String := none
  side : String := "ANY"
  sta_min : Option ℚ := none
  sta_max : Option ℚ := none
  wl_min : Option ℚ := none
  wl_max : Option ℚ := none
  stringer_min : Option ℚ := none
  stringer_max : Option ℚ := none
  pressurized : Option Int := none
  material : Option String := none
  conditions_json : Stored Conditions := .valid {}
  limits_json : Stored Limits := .valid {}
  actions_json : Stored Actions := .valid {}
  srm_ref : Option String := none
  severity : String := "engineering"
  notes : Option String := none
  source_page : Option String := none
deriving DecidableEq, Repr

/-- The metadata UPDATE of `upsert_ruleset`: name/effective_date/source
refresh on the matched id, identity key untouched. -/
def updateMeta (rs : RuleSetSeed) (rule_set_id : Int) (rows : List RuleSetRow) :
    List RuleSetRow :=
  rows.map (fun r =>
    if r.id == rule_set_id then
      { r with name := rs.name, effective_date := rs.effective_date, source := rs.source }
    else r)

/-- The INSERT branch of `upsert_ruleset`: a fresh row under the next
AUTOINCREMENT id. -/
def insert_ruleset_row (db : DB) (rs : RuleSetSeed) : DB × Int :=
  ({ db with
      rule_sets := db.rule_sets ++
        [{ id := db.next_rule_set_id, name := rs.name,
           aircraft_family := rs.aircraft_family, revision := rs.revision,
           effective_date := rs.effective_date, source := rs.source }],
      next_rule_set_id := db.next_rule_set_id + 1 },
   db.next_rule_set_id)

/-- SQL `WHERE aircraft_family = ? AND revision = ?` of the upsert lookup. -/
def seedKey (rs : RuleSetSeed) (r : RuleSetRow) : Bool :=
  r.aircraft_family == rs.aircraft_family && r.revision == rs.revision

/-- The seeder `upsert_ruleset(conn, rs, upsert=...)`. -/
def upsert_ruleset (db : DB) (rs : RuleSetSeed) (upsert : Bool) : DB × Int :=
  if upsert then
    match db.rule_sets.find? (seedKey rs) with
    | some row => ({ db with rule_sets := updateMeta rs row.id db.rule_sets }, row.id)
    | none => insert_ruleset_row db rs
  else insert_ruleset_row db rs

/-- SQL `DELETE FROM rules WHERE rule_set_id = ?` (the `--wipe-ruleset-rules`
branch of `main`). -/
def wipe_rules (db : DB) (rule_set_id : Int) : DB :=
  { db with rules := db.rules.filter (fun r => !(r.rule_set_id == rule_set_id)) }

/-- The row built by the INSERT of `insert_rules`. -/
def ruleRowOfSeed (id rule_set_id : Int) (r : RuleSeed) : RuleRow :=
  { id := id, rule_set_id := rule_set_id, enabled := r.enabled,
    priority := r.priority, damage_type := r.damage_type,
    structure_ := r.structure_, structure_zone := r.structure_zone,
    zone_detail := r.zone_detail, side := r.side,
    sta_min := r.sta_min, sta_max := r.sta_max,
    wl_min := r.wl_min, wl_max := r.wl_max,
    stringer_min := r.stringer_min, stringer_max := r.stringer_max,
    pressurized := r.pressurized, material := r.material,
    conditions_json := r.conditions_json, limits_json := r.limits_json,
    actions_json := r.actions_json, srm_ref := r.srm_ref,
    severity := some r.severity, notes := r.notes, source_page := r.source_page }

/-- SQL `SELECT COUNT(*) FROM rules WHERE rule_set_id = ?`. -/
def totalCount (db : DB) (rule_set_id : Int) : Nat :=
  (db.rules.filter (fun r => r.rule_set_id == rule_set_id)).length

/-- The insertion loop of `insert_rules`, returning the updated database
and the `inserted` counter. -/
def insert_rules (db : DB) (rule_set_id : Int) : List RuleSeed → DB × Nat
  | [] => (db, 0)
  | r :: rest =>
    let db1 : DB :=
      { db with
          rules := db.rules ++ [ruleRowOfSeed db.next_rule_id rule_set_id r],
          next_rule_id := db.next_rule_id + 1 }
    let p := insert_rules db1 rule_set_id rest
    (p.1, p.2 + 1)

/-- The outcome the seeder reports (`ruleSetId`, `insertedCount`,
`totalCount`) alongside the committed database. -/
structure LoadOutcome where
  db : DB
  ruleSetId : Int
  insertedCount : Nat
  totalRules : Nat
deriving DecidableEq, Repr

/-- One run of `main` with `--upsert-ruleset --wipe-ruleset-rules`:
upsert the rule set, wipe its rules, insert the rules of the document, and
report the total under the matched id. -/
def load_upsert_wipe (db : DB) (rs : RuleSetSeed) (rules : List RuleSeed) :
    LoadOutcome :=
  let p := upsert_ruleset db rs true
  let db2 := wipe_rules p.1 p.2
  let q := insert_rules db2 p.2 rules
  { db := q.1, ruleSetId := p.2, insertedCount := q.2,
    totalRules := totalCount q.1 p.2 }

/-! ## Concrete data used by counterexamples and witnesses -/

/-- A demo rule set row for aircraft family B787. -/
def rs787 : RuleSetRow :=
  { id := 1, name := "Demo", aircraft_family := "B787", revision := "DEMO-01" }

/-- A fully classified dent context with no measurements. -/
def dentCtx : Ctx :=
  { damage_type := some "dent", damage_structure := some "skin",
    zone := some "fuselage" }

/-- A rule whose actions carry a non-escalating disposition and whose
ratio limit fails against `dentCtx` (no ratio provided). -/
def repairRule : RuleRow :=
  { id := 1, rule_set_id := 1, damage_type := "dent", structure_ := "skin",
    structure_zone := "fuselage",
    limits_json := .valid { max_depth_to_thickness_ratio := some 1 },
    actions_json := .valid { disposition := some "REPAIR" } }

/-- Database holding only `repairRule`. -/
def repairDb : DB := { rule_sets := [rs787], rules := [repairRule] }

/-- A left-hand-side-only rule that passes its (empty) limits. -/
def lhRule : RuleRow :=
  { id := 1, rule_set_id := 1, damage_type := "dent", structure_ := "skin",
    structure_zone := "fuselage", side := "LH",
    actions_json := .valid { disposition := some "ALLOW_AS_IS" },
    severity := some "allow" }

/-- Database holding only `lhRule`. -/
def lhDb : DB := { rule_sets := [rs787], rules := [lhRule] }

/-- The context `dentCtx` with the side recorded as LH. -/
def dentCtxLH : Ctx := { dentCtx with side := some "LH" }

/-- A rule whose stored limits column is non-empty malformed JSON. -/
def malformedRule : RuleRow :=
  { id := 1, rule_set_id := 1, damage_type := "dent", structure_ := "skin",
    structure_zone := "fuselage", limits_json := .malformed }

/-- Database holding only `malformedRule`. -/
def malformedDb : DB := { rule_sets := [rs787], rules := [malformedRule] }

/-- Like `malformedRule` but with NULL/empty payload columns instead. -/
def nullJsonRule : RuleRow :=
  { id := 1, rule_set_id := 1, damage_type := "dent", structure_ := "skin",
    structure_zone := "fuselage" }

/-- Database holding only `nullJsonRule`. -/
def nullJsonDb : DB := { rule_sets := [rs787], rules := [nullJsonRule] }

/-- An empty database. -/
def emptyDb : DB := {}

/-! ## Scan-state invariant: every rule-derived result carries a rule id -/

/-- Invariant of the candidate loop: an early return or a recorded
`best_fail` always stems from a concrete rule row. -/
def scanInv : ScanState → Prop
  | .done r => r.rule_id ≠ none
  | .scanning none => True
  | .scanning (some bf) => bf.rule_id ≠ none

theorem step_preserves_scanInv {ctx : Ctx} {st st' : ScanState} {row : RuleRow}
    (hst : scanInv st) (h : step ctx st row = .ok st') : scanInv st' := by
  cases st with
  | done r =>
    cases h
    exact hst
  | scanning bf =>
    simp only [step] at h
    split at h
    · cases h; exact hst
    · split at h
      · cases h; exact hst
      · split at h
        · cases h; exact hst
        · split at h
          · cases h
          · split at h
            · cases h
            · split at h
              · cases h
              · split at h
                · cases h
                · split at h
                  · cases h; exact hst
                  · split at h
                    · cases h; simp [scanInv, passResult]
                    · split at h
                      · cases h; exact hst
                      · cases h; simp [scanInv, failResult]

theorem foldlM_step_scanInv {ctx : Ctx} :
    ∀ (l : List RuleRow) (st st' : ScanState),
      scanInv st → l.foldlM (step ctx) st = .ok st' → scanInv st' := by
  intro l
  induction l with
  | nil =>
    intro st st' hst h
    cases h
    exact hst
  | cons a l ih =>
    intro st st' hst h
    rw [List.foldlM_cons] at h
    cases h1 : step ctx st a with
    | error e => rw [h1] at h; cases h
    | ok st1 =>
      rw [h1] at h
      exact ih st1 st' (step_preserves_scanInv hst h1) h

/-- C1 (counterexample): a rule whose `actions` carry disposition
`"REPAIR"` fails its ratio limit; the returned FAIL terminal state has
`passed = false` but disposition `"REPAIR"`, not `"ENGINEERING_REVIEW"`,
so the claim that every FAIL terminal state maps to
`"ENGINEERING_REVIEW"` is false. -/
theorem best_fail_non_escalating_disposition :
    assess_damage repairDb "B787" dentCtx none =
      .ok { rule_id := some 1, passed := false, disposition := "REPAIR",
            severity := "engineering", srm_ref := none,
            reasons := [ratioMissingMsg],
            actions := { disposition := some "REPAIR" } } ∧
    "REPAIR" ≠ "ENGINEERING_REVIEW" := by
  exact ⟨rfl, by decide⟩

/-- C1 (amended): every terminal state with no rule recorded
(MISSING_CLASSIFICATION, NO_RULESET, NO_MATCH, or nothing applicable
after filtering) has `passed = false` and disposition
`"ENGINEERING_REVIEW"`; the FAIL terminal state (`best_fail`) has
`passed = false` but carries the own actions disposition of the failing
rule, defaulting to `"ENGINEERING_REVIEW"` only when those actions do
not set one. -/
theorem fail_states_escalate :
    (∀ (db : DB) (fam : String) (ctx : Ctx) (rev : Option String)
       (r : AssessmentResult),
       assess_damage db fam ctx rev = .ok r → r.rule_id = none →
       r.passed = false ∧ r.disposition = "ENGINEERING_REVIEW") ∧
    (∀ (row : RuleRow) (actions : Actions) (reasons : List String),
       (failResult row actions reasons).rule_id = some row.id ∧
       (failResult row actions reasons).passed = false ∧
       (failResult row actions reasons).disposition =
         actions.disposition.getD "ENGINEERING_REVIEW") := by
  constructor
  · intro db fam ctx rev r h hid
    unfold assess_damage at h
    split at h
    · split at h
      · cases h
        exact ⟨rfl, rfl⟩
      · split at h
        · cases h
          exact ⟨rfl, rfl⟩
        · rename_i row rest _
          cases hf : (row :: rest).foldlM (step ctx) (ScanState.scanning none) with
          | error e => rw [hf] at h; cases h
          | ok st =>
            rw [hf] at h
            cases h
            have hinv : scanInv st :=
              foldlM_step_scanInv (row :: rest) (ScanState.scanning none) st trivial hf
            cases st with
            | done rr => exact absurd hid hinv
            | scanning obf =>
              cases obf with
              | some bf => exact absurd hid hinv
              | none => exact ⟨rfl, rfl⟩
    · cases h
      exact ⟨rfl, rfl⟩
  · intro row actions reasons
    exact ⟨rfl, rfl, rfl⟩

/-- C1 (witness for `fail_states_escalate`): the empty database with an
unclassified context yields the missing-classification terminal, whose
disposition is `ENGINEERING_REVIEW` with `passed = false`. -/
theorem fail_states_escalate_witness :
    missingClassificationResult.passed = false ∧
    missingClassificationResult.disposition = "ENGINEERING_REVIEW" :=
  fail_states_escalate.1 emptyDb "B787" {} none missingClassificationResult rfl rfl

/-- C8: a context missing `damage.type`, `damage.structure`, or
`location.zone` short-circuits — for every database and revision the
result is the fixed missing-classification escalation (`passed = false`,
disposition `ENGINEERING_REVIEW`, `rule_id = None`), independent of the
rule store. -/
theorem missing_classification_short_circuits :
    ∀ (db : DB) (fam : String) (ctx : Ctx) (rev : Option String),
      ctx.damage_type = none ∨ ctx.damage_structure = none ∨ ctx.zone = none →
      assess_damage db fam ctx rev = .ok missingClassificationResult ∧
      missingClassificationResult.rule_id = none ∧
      missingClassificationResult.passed = false ∧
      missingClassificationResult.disposition = "ENGINEERING_REVIEW" := by
  intro db fam ctx rev h
  refine ⟨?_, rfl, rfl, rfl⟩
  rcases h with h | h | h <;> simp [assess_damage, truthyStr, h]

/-- C8 (witness): a context with only the zone present short-circuits on
the empty database. -/
theorem missing_classification_short_circuits_witness :
    assess_damage emptyDb "B787" { zone := some "fuselage" } none =
      .ok missingClassificationResult ∧
    missingClassificationResult.rule_id = none ∧
    missingClassificationResult.passed = false ∧
    missingClassificationResult.disposition = "ENGINEERING_REVIEW" :=
  missing_classification_short_circuits emptyDb "B787" { zone := some "fuselage" }
    none (Or.inl rfl)

/-- C10: an empty-string classification value is treated exactly like a
missing one — the guard tests truthiness, so `""` in `damage.type`,
`damage.structure`, or `location.zone` returns the same fixed
missing-classification result without consulting the rule store. -/
theorem empty_string_classification_short_circuits :
    ∀ (db : DB) (fam : String) (ctx : Ctx) (rev : Option String),
      ctx.damage_type = some "" ∨ ctx.damage_structure = some "" ∨ ctx.zone = some "" →
      assess_damage db fam ctx rev = .ok missingClassificationResult ∧
      missingClassificationResult.rule_id = none ∧
      missingClassificationResult.passed = false ∧
      missingClassificationResult.disposition = "ENGINEERING_REVIEW" := by
  intro db fam ctx rev h
  refine ⟨?_, rfl, rfl, rfl⟩
  rcases h with h | h | h <;> simp [assess_damage, truthyStr, h]

/-- C10 (witness): an empty-string `damage.type` short-circuits on a
database that does hold a matching rule. -/
theorem empty_string_classification_short_circuits_witness :
    assess_damage repairDb "B787" { dentCtx with damage_type := some "" } none =
      .ok missingClassificationResult ∧
    missingClassificationResult.rule_id = none ∧
    missingClassificationResult.passed = false ∧
    missingClassificationResult.disposition = "ENGINEERING_REVIEW" :=
  empty_string_classification_short_circuits repairDb "B787"
    { dentCtx with damage_type := some "" } none (Or.inl rfl)

/-- C5: a configured `max_depth_to_thickness_ratio` limit fails against
a context with no ratio, appending the fixed not-provided reason, which
differs from every out-of-range ratio message. -/
theorem missing_ratio_fails_strictly :
    ∀ (limits : Limits) (ctx : Ctx) (reasons : List String) (l : ℚ),
      limits.max_depth_to_thickness_ratio = some l →
      ctx.depth_to_thickness_ratio = none →
      (_eval_limits limits ctx reasons).1 = false ∧
      ratioMissingMsg ∈ (_eval_limits limits ctx reasons).2 ∧
      (∀ r lim : ℚ, ratioMissingMsg ≠ ratioMsg r lim) := by
  intro limits ctx reasons l hl hr
  refine ⟨?_, ?_, ?_⟩
  · cases hp : depthCheck limits ctx (diaCheck limits ctx (true, reasons)) with
    | mk ok1 rs1 => simp [_eval_limits, hp, ratioCheck, hl, hr]
  · cases hp : depthCheck limits ctx (diaCheck limits ctx (true, reasons)) with
    | mk ok1 rs1 => simp [_eval_limits, hp, ratioCheck, hl, hr]
  · intro r lim h
    have hd := congrArg String.data h
    simp [ratioMsg, ratioMissingMsg, String.data_append] at hd

/-- C5 (witness): the limits of `repairRule` against the measurement-free
dent context fail with exactly the not-provided reason. -/
theorem missing_ratio_fails_strictly_witness :
    (_eval_limits { max_depth_to_thickness_ratio := some 1 } dentCtx []).1 = false ∧
    ratioMissingMsg ∈ (_eval_limits { max_depth_to_thickness_ratio := some 1 } dentCtx []).2 ∧
    (∀ r lim : ℚ, ratioMissingMsg ≠ ratioMsg r lim) :=
  missing_ratio_fails_strictly { max_depth_to_thickness_ratio := some 1 } dentCtx [] 1
    rfl rfl

/-- C9: a configured `max_diameter_mm` (resp. `max_depth_mm`) limit is
silently skipped when the context measurement is `None` — the check
leaves the verdict and reasons untouched, and with no ratio limit
configured the whole limit evaluation passes with no reasons appended. -/
theorem absent_measurement_passes_silently :
    (∀ (limits : Limits) (ctx : Ctx) (st : Bool × List String),
       ctx.diameter_mm = none → diaCheck limits ctx st = st) ∧
    (∀ (limits : Limits) (ctx : Ctx) (st : Bool × List String),
       ctx.depth_mm = none → depthCheck limits ctx st = st) ∧
    (∀ (limits : Limits) (ctx : Ctx) (reasons : List String),
       ctx.diameter_mm = none → ctx.depth_mm = none →
       limits.max_depth_to_thickness_ratio = none →
       _eval_limits limits ctx reasons = (true, reasons)) := by
  refine ⟨?_, ?_, ?_⟩
  · intro limits ctx st h
    obtain ⟨ok, rs⟩ := st
    cases hm : limits.max_diameter_mm <;> simp [diaCheck, h, hm]
  · intro limits ctx st h
    obtain ⟨ok, rs⟩ := st
    cases hm : limits.max_depth_mm <;> simp [depthCheck, h, hm]
  · intro limits ctx reasons h1 h2 h3
    cases hm : limits.max_diameter_mm <;>
      cases hm2 : limits.max_depth_mm <;>
        simp [_eval_limits, diaCheck, depthCheck, ratioCheck, h1, h2, h3, hm, hm2]

/-- C9 (witness): limits configuring both measurement ceilings pass
against the measurement-free dent context with no reasons. -/
theorem absent_measurement_passes_silently_witness :
    _eval_limits { max_diameter_mm := some 50, max_depth_mm := some 2 } dentCtx [] =
      (true, []) :=
  absent_measurement_passes_silently.2.2
    { max_diameter_mm := some 50, max_depth_mm := some 2 } dentCtx [] rfl rfl rfl

/-- C6: numeric range filters are inclusive on both bounds, an absent
context value always passes (`sta`/`wl` via `_within_range`, stringer
via the inline check), and an absent bound leaves that side
unconstrained. -/
theorem range_filters_inclusive :
    (∀ v mn mx : ℚ,
       _within_range (some v) (some mn) (some mx) = true ↔ mn ≤ v ∧ v ≤ mx) ∧
    (∀ mn mx : Option ℚ, _within_range none mn mx = true) ∧
    (∀ mn mx : Option ℚ, stringerPass none mn mx = true) ∧
    (∀ s mn mx : ℚ,
       stringerPass (some s) (some mn) (some mx) = true ↔ mn ≤ s ∧ s ≤ mx) ∧
    (∀ v mx : ℚ, _within_range (some v) none (some mx) = true ↔ v ≤ mx) ∧
    (∀ v mn : ℚ, _within_range (some v) (some mn) none = true ↔ mn ≤ v) := by
  refine ⟨?_, ?_, ?_, ?_, ?_, ?_⟩
  · intro v mn mx
    simp [_within_range, not_lt]
  · intro mn mx; rfl
  · intro mn mx; rfl
  · intro s mn mx
    simp [stringerPass, not_lt]
  · intro v mx
    simp [_within_range, not_lt]
  · intro v mn
    simp [_within_range, not_lt]

/-- C6 (witness): the example of the spec — a rule spanning stations 1200 to
1300 matches station 1200, station 1300, and a context with no station
at all. -/
theorem range_filters_inclusive_witness :
    _within_range (some 1200) (some 1200) (some 1300) = true ∧
    _within_range (some 1300) (some 1200) (some 1300) = true ∧
    _within_range none (some 1200) (some 1300) = true :=
  ⟨(range_filters_inclusive.1 1200 1200 1300).mpr (by norm_num),
   (range_filters_inclusive.1 1300 1200 1300).mpr (by norm_num),
   range_filters_inclusive.2.1 (some 1200) (some 1300)⟩

/-- C2 (counterexample): a context with no side does not match an
otherwise-applicable LH rule — the engine returns the NO_MATCH
escalation — while the identical context with `side="LH"` passes on
that very rule.  The claim that an absent context side is a wildcard
over rule sides is therefore false. -/
theorem context_side_not_wildcard :
    assess_damage lhDb "B787" dentCtx none = .ok noMatchResult ∧
    noMatchResult.rule_id = none ∧ noMatchResult.passed = false ∧
    assess_damage lhDb "B787" dentCtxLH none =
      .ok { rule_id := some 1, passed := true, disposition := "ALLOW_AS_IS",
            severity := "allow", srm_ref := none,
            reasons := ["Within limits."],
            actions := { disposition := some "ALLOW_AS_IS" } } :=
  ⟨rfl, rfl, rfl, rfl⟩

/-- C2 (amended): the wildcard position is the side of the rule — a context
whose side is absent (hence bound as `"ANY"`) matches exactly the rules
whose own side is `"ANY"`; it does not match `"LH"`/`"RH"` rules. -/
theorem absent_context_side_matches_only_any :
    ∀ (ctx : Ctx) (row : RuleRow), ctx.side = none →
      (sideMatch row.side (pyOrStr ctx.side "ANY") = true ↔ row.side = "ANY") := by
  intro ctx row h
  simp [sideMatch, pyOrStr, h]

/-- C2 (witness): instantiating on the LH rule and the side-free dent
context, the side filter rejects the rule. -/
theorem absent_context_side_matches_only_any_witness :
    sideMatch lhRule.side (pyOrStr dentCtx.side "ANY") = false := by
  have h := absent_context_side_matches_only_any dentCtx lhRule rfl
  revert h
  decide

/-- C3 (counterexample): a candidate rule whose stored `limits_json` is
non-empty malformed text makes `assess_damage` raise
`json.JSONDecodeError` — the evaluation aborts instead of completing
with an empty-object fallback. -/
theorem malformed_json_raises :
    assess_damage malformedDb "B787" dentCtx none =
      Except.error "json.JSONDecodeError" := rfl

/-- C3 (amended): the `row[col] or "{}"` fallback applies only to SQL
NULL / empty-string columns, which parse as empty objects and let the
evaluation complete normally; non-empty malformed JSON raises a parse
error instead of being treated as empty. -/
theorem null_json_falls_back_malformed_raises :
    (∀ (α : Type) (e : α),
       loads e (Stored.nullOrEmpty : Stored α) = .ok e ∧
       (∀ d : α, loads e (Stored.valid d) = .ok d) ∧
       loads e (Stored.malformed : Stored α) = Except.error "json.JSONDecodeError") ∧
    assess_damage nullJsonDb "B787" dentCtx none =
      .ok { rule_id := some 1, passed := true, disposition := "ALLOW_AS_IS",
            severity := "engineering", srm_ref := none,
            reasons := ["Within limits."], actions := {} } := by
  refine ⟨?_, rfl⟩
  intro α e
  exact ⟨rfl, fun d => rfl, rfl⟩

/-! ## Seeder lemmas for the upsert+wipe idempotence claim -/

theorem insert_rules_rule_sets :
    ∀ (rules : List RuleSeed) (db : DB) (rule_set_id : Int),
      (insert_rules db rule_set_id rules).1.rule_sets = db.rule_sets := by
  intro rules
  induction rules with
  | nil => intro db id; rfl
  | cons r rest ih =>
    intro db id
    simp only [insert_rules]
    rw [ih]

theorem insert_rules_count :
    ∀ (rules : List RuleSeed) (db : DB) (rule_set_id : Int),
      totalCount (insert_rules db rule_set_id rules).1 rule_set_id =
        totalCount db rule_set_id + rules.length := by
  intro rules
  induction rules with
  | nil => intro db id; rfl
  | cons r rest ih =>
    intro db id
    simp only [insert_rules]
    rw [ih]
    simp [totalCount, List.filter_append, ruleRowOfSeed]
    omega

theorem wipe_rules_count (db : DB) (rule_set_id : Int) :
    totalCount (wipe_rules db rule_set_id) rule_set_id = 0 := by
  simp [totalCount, wipe_rules, List.filter_filter]

theorem wipe_rules_rule_sets (db : DB) (rule_set_id : Int) :
    (wipe_rules db rule_set_id).rule_sets = db.rule_sets := rfl

theorem seedKey_updateMeta (rs : RuleSetSeed) (rid : Int) (r : RuleSetRow) :
    seedKey rs (if r.id == rid then
      { r with name := rs.name, effective_date := rs.effective_date,
               source := rs.source } else r) = seedKey rs r := by
  split <;> rfl

theorem find?_updateMeta_id (rs : RuleSetSeed) (rid : Int) :
    ∀ (l : List RuleSetRow) (row : RuleSetRow),
      l.find? (seedKey rs) = some row →
      ∃ row', (updateMeta rs rid l).find? (seedKey rs) = some row' ∧
        row'.id = row.id := by
  intro l
  induction l with
  | nil => intro row h; cases h
  | cons x xs ih =>
    intro row h
    by_cases hx : seedKey rs x = true
    · rw [List.find?_cons_of_pos _ hx] at h
      cases h
      refine ⟨(if x.id == rid then
          { x with name := rs.name, effective_date := rs.effective_date,
                   source := rs.source } else x), ?_, ?_⟩
      · simp only [updateMeta, List.map]
        exact List.find?_cons_of_pos _ (by rw [seedKey_updateMeta]; exact hx)
      · split <;> rfl
    · rw [List.find?_cons_of_neg _ hx] at h
      obtain ⟨row', hr, hid⟩ := ih row h
      refine ⟨row', ?_, hid⟩
      simp only [updateMeta, List.map]
      rw [List.find?_cons_of_neg _ (by rw [seedKey_updateMeta]; exact hx)]
      exact hr

theorem find?_append_of_none {α : Type} (p : α → Bool) :
    ∀ (l : List α) (x : α), l.find? p = none → p x = true →
      (l ++ [x]).find? p = some x := by
  intro l
  induction l with
  | nil =>
    intro x _ hx
    simp [List.find?, hx]
  | cons a l ih =>
    intro x h hx
    rw [List.find?_cons] at h
    split at h
    · cases h
    · rename_i ha
      rw [List.cons_append, List.find?_cons_of_neg _ (by simpa using ha)]
      exact ih x h hx

theorem find?_after_upsert (db : DB) (rs : RuleSetSeed) :
    ∃ row', (upsert_ruleset db rs true).1.rule_sets.find? (seedKey rs) = some row' ∧
      row'.id = (upsert_ruleset db rs true).2 := by
  unfold upsert_ruleset
  rw [if_pos rfl]
  cases h : db.rule_sets.find? (seedKey rs) with
  | some row =>
    exact find?_updateMeta_id rs row.id db.rule_sets row h
  | none =>
    refine ⟨{ id := db.next_rule_set_id, name := rs.name,
              aircraft_family := rs.aircraft_family, revision := rs.revision,
              effective_date := rs.effective_date, source := rs.source }, ?_, rfl⟩
    exact find?_append_of_none _ db.rule_sets _ h (by simp [seedKey])

/-- C7: loading the same seed document twice via upsert+wipe against the
same `(family, revision)` is idempotent on the rules relation — each
load leaves the rule count under the matched rule-set id equal to the
rule count of the document, and the second load reuses the rule-set id
of the first load. -/
theorem seed_upsert_wipe_idempotent :
    ∀ (db : DB) (rs : RuleSetSeed) (rules : List RuleSeed),
      (load_upsert_wipe db rs rules).totalRules = rules.length ∧
      (load_upsert_wipe (load_upsert_wipe db rs rules).db rs rules).totalRules =
        rules.length ∧
      (load_upsert_wipe (load_upsert_wipe db rs rules).db rs rules).ruleSetId =
        (load_upsert_wipe db rs rules).ruleSetId := by
  have htotal : ∀ (db : DB) (rs : RuleSetSeed) (rules : List RuleSeed),
      (load_upsert_wipe db rs rules).totalRules = rules.length := by
    intro db rs rules
    show totalCount (insert_rules (wipe_rules (upsert_ruleset db rs true).1
        (upsert_ruleset db rs true).2) (upsert_ruleset db rs true).2 rules).1
        (upsert_ruleset db rs true).2 = rules.length
    rw [insert_rules_count, wipe_rules_count]
    exact Nat.zero_add _
  intro db rs rules
  refine ⟨htotal db rs rules, htotal _ rs rules, ?_⟩
  obtain ⟨row', hfind, hid⟩ := find?_after_upsert db rs
  have hsets : (load_upsert_wipe db rs rules).db.rule_sets =
      (upsert_ruleset db rs true).1.rule_sets := by
    show (insert_rules (wipe_rules (upsert_ruleset db rs true).1
        (upsert_ruleset db rs true).2) (upsert_ruleset db rs true).2 rules).1.rule_sets = _
    rw [insert_rules_rule_sets, wipe_rules_rule_sets]
  have h2 : (load_upsert_wipe db rs rules).db.rule_sets.find? (seedKey rs) =
      some row' := by rw [hsets]; exact hfind
  show (upsert_ruleset (load_upsert_wipe db rs rules).db rs true).2 =
    (upsert_ruleset db rs true).2
  rw [← hid]
  unfold upsert_ruleset
  rw [if_pos rfl, h2]

/-! ## Priority-order lemmas for the selection policy -/

theorem sortRules_pair {A B : RuleRow} (h : B.priority < A.priority) :
    sortRules [A, B] = [A, B] ∧ sortRules [B, A] = [A, B] := by
  have hAB : ruleLE A B := Or.inl h
  have hBA : ¬ ruleLE B A := by
    rintro (h' | ⟨h', _⟩)
    · exact absurd h (not_lt.mpr (le_of_lt h'))
    · rw [h'] at h; exact lt_irrefl _ h
  constructor <;>
    simp [sortRules, List.insertionSort, List.orderedInsert, hAB, hBA]

theorem step_applicable {ctx : Ctx} {row : RuleRow} {bf : Option AssessmentResult}
    {c : Conditions} {l : Limits} {a : Actions}
    (hrange : rangePass ctx row = true)
    (hc : loads {} row.conditions_json = .ok c)
    (hl : loads {} row.limits_json = .ok l)
    (ha : loads {} row.actions_json = .ok a)
    (hcond : _eval_conditions c ctx [] = .ok (true, [])) :
    step ctx (.scanning bf) row =
      if (_eval_limits l ctx []).1 then
        .ok (.done (passResult row a (_eval_limits l ctx []).2))
      else
        match bf with
        | some b => .ok (.scanning (some b))
        | none => .ok (.scanning (some (failResult row a (_eval_limits l ctx []).2))) := by
  have hr := hrange
  simp only [rangePass, Bool.and_eq_true] at hr
  obtain ⟨⟨h1, h2⟩, h3⟩ := hr
  simp [step, h1, h2, h3, hc, hl, ha, hcond]

theorem step_conditions_rejected {ctx : Ctx} {row : RuleRow}
    {bf : Option AssessmentResult} {c : Conditions} {l : Limits} {a : Actions}
    {rs : List String}
    (hc : loads {} row.conditions_json = .ok c)
    (hl : loads {} row.limits_json = .ok l)
    (ha : loads {} row.actions_json = .ok a)
    (hcond : _eval_conditions c ctx [] = .ok (false, rs)) :
    step ctx (.scanning bf) row = .ok (.scanning bf) := by
  cases h1 : _within_range ctx.sta row.sta_min row.sta_max with
  | false => simp [step, h1]
  | true =>
    cases h2 : _within_range ctx.wl row.wl_min row.wl_max with
    | false => simp [step, h1, h2]
    | true =>
      cases h3 : stringerPass ctx.stringer_num row.stringer_min row.stringer_max with
      | false => simp [step, h1, h2, h3]
      | true => simp [step, h1, h2, h3, hc, hl, ha, hcond]

/-- C4: for two enabled, otherwise-applicable rules A and B in the same
rule set where the priority of A is strictly above that of B (stored in
either order),
A is evaluated first; if A fails its limits and B passes, the verdict is
the PASS of B (the scan does not stop on the failure of A); if both
fail, the verdict is the failure of A (first-encountered =
highest-priority failure);
and a conditions-rejected rule is skipped with the scan state — in
particular any recorded `best_fail` — left untouched. -/
theorem priority_scan_order :
    (∀ (fam : String) (rsRow : RuleSetRow) (A B : RuleRow) (ctx : Ctx)
       (rules : List RuleRow) (cA : Conditions) (lA : Limits) (aA : Actions)
       (cB : Conditions) (lB : Limits) (aB : Actions),
       rsRow.aircraft_family = fam →
       (rules = [A, B] ∨ rules = [B, A]) →
       B.priority < A.priority →
       truthyStr ctx.damage_type = true →
       truthyStr ctx.damage_structure = true →
       truthyStr ctx.zone = true →
       ctxFilter rsRow.id ctx A = true →
       ctxFilter rsRow.id ctx B = true →
       rangePass ctx A = true →
       rangePass ctx B = true →
       loads {} A.conditions_json = .ok cA →
       loads {} A.limits_json = .ok lA →
       loads {} A.actions_json = .ok aA →
       loads {} B.conditions_json = .ok cB →
       loads {} B.limits_json = .ok lB →
       loads {} B.actions_json = .ok aB →
       _eval_conditions cA ctx [] = .ok (true, []) →
       _eval_conditions cB ctx [] = .ok (true, []) →
       (_eval_limits lA ctx []).1 = false →
       (((_eval_limits lB ctx []).1 = true →
          assess_damage { rule_sets := [rsRow], rules := rules } fam ctx none =
            .ok (passResult B aB (_eval_limits lB ctx []).2)) ∧
        ((_eval_limits lB ctx []).1 = false →
          assess_damage { rule_sets := [rsRow], rules := rules } fam ctx none =
            .ok (failResult A aA (_eval_limits lA ctx []).2)))) ∧
    (∀ (ctx : Ctx) (row : RuleRow) (bf : Option AssessmentResult)
       (c : Conditions) (l : Limits) (a : Actions) (rs : List String),
       loads {} row.conditions_json = .ok c →
       loads {} row.limits_json = .ok l →
       loads {} row.actions_json = .ok a →
       _eval_conditions c ctx [] = .ok (false, rs) →
       step ctx (.scanning bf) row = .ok (.scanning bf)) := by
  constructor
  · intro fam rsRow A B ctx rules cA lA aA cB lB aB hfam hrules hpr ht1 ht2 ht3
      hA hB hrA hrB hcA hlA haA hcB hlB haB hcondA hcondB hfailA
    have hguard : (truthyStr ctx.damage_type && truthyStr ctx.damage_structure &&
        truthyStr ctx.zone) = true := by rw [ht1, ht2, ht3]; rfl
    have hlook : lookup_rule_set { rule_sets := [rsRow], rules := rules } fam none =
        some rsRow.id := by
      simp [lookup_rule_set, truthyStr, maxIdRow, hfam]
    have hfilt : List.filter (ctxFilter rsRow.id ctx) rules = rules := by
      rcases hrules with h | h <;> subst h <;> simp [List.filter, hA, hB]
    have hsorted : sortRules (List.filter (ctxFilter rsRow.id ctx) rules) = [A, B] := by
      rw [hfilt]
      rcases hrules with h | h <;> subst h
      · exact (sortRules_pair hpr).1
      · exact (sortRules_pair hpr).2
    have hstepA : step ctx (ScanState.scanning none) A =
        .ok (.scanning (some (failResult A aA (_eval_limits lA ctx []).2))) := by
      rw [step_applicable hrA hcA hlA haA hcondA, hfailA]
      rfl
    constructor
    · intro hpassB
      have hstepB : step ctx
          (ScanState.scanning (some (failResult A aA (_eval_limits lA ctx []).2))) B =
          .ok (.done (passResult B aB (_eval_limits lB ctx []).2)) := by
        rw [step_applicable hrB hcB hlB haB hcondB, hpassB]
        rfl
      unfold assess_damage
      rw [if_pos hguard, hlook]
      dsimp only
      rw [hsorted]
      dsimp only
      rw [List.foldlM_cons, hstepA]
      show Except.map finishScan
        (List.foldlM (step ctx)
          (ScanState.scanning (some (failResult A aA (_eval_limits lA ctx []).2))) [B]) = _
      rw [List.foldlM_cons, hstepB]
      rfl
    · intro hfailB
      have hstepB : step ctx
          (ScanState.scanning (some (failResult A aA (_eval_limits lA ctx []).2))) B =
          .ok (.scanning (some (failResult A aA (_eval_limits lA ctx []).2))) := by
        rw [step_applicable hrB hcB hlB haB hcondB, hfailB]
        rfl
      unfold assess_damage
      rw [if_pos hguard, hlook]
      dsimp only
      rw [hsorted]
      dsimp only
      rw [List.foldlM_cons, hstepA]
      show Except.map finishScan
        (List.foldlM (step ctx)
          (ScanState.scanning (some (failResult A aA (_eval_limits lA ctx []).2))) [B]) = _
      rw [List.foldlM_cons, hstepB]
      rfl
  · intro ctx row bf c l a rs hc hl ha hcond
    exact step_conditions_rejected hc hl ha hcond

/-- Priority-10 rule that fails its ratio limit against `dentCtx`. -/
def highRule : RuleRow :=
  { id := 1, rule_set_id := 1, priority := 10, damage_type := "dent",
    structure_ := "skin", structure_zone := "fuselage",
    limits_json := .valid { max_depth_to_thickness_ratio := some 1 },
    actions_json := .valid { disposition := some "REPAIR" } }

/-- Priority-5 rule whose empty limits pass. -/
def lowRule : RuleRow :=
  { id := 2, rule_set_id := 1, priority := 5, damage_type := "dent",
    structure_ := "skin", structure_zone := "fuselage",
    actions_json := .valid { disposition := some "ALLOW_AS_IS" },
    severity := some "allow" }

/-- A rule rejected by its `requires_no_visible_crack` condition when
the context reports a visible crack. -/
def crackRule : RuleRow :=
  { id := 3, rule_set_id := 1, damage_type := "dent", structure_ := "skin",
    structure_zone := "fuselage",
    conditions_json := .valid { requires_no_visible_crack := true } }

/-- The context `dentCtx` with a visible crack. -/
def crackCtx : Ctx := { dentCtx with visible_crack := some true }

/-- C4 (witness for `priority_scan_order`): with the high-priority rule
failing and the low-priority rule passing, the engine returns the
low-priority PASS; and the crack-rejected rule leaves the scan state
unchanged. -/
theorem priority_scan_order_witness :
    assess_damage { rule_sets := [rs787], rules := [highRule, lowRule] }
        "B787" dentCtx none =
      .ok (passResult lowRule { disposition := some "ALLOW_AS_IS" }
            (_eval_limits {} dentCtx []).2) ∧
    step crackCtx (.scanning none) crackRule = .ok (.scanning none) :=
  ⟨(priority_scan_order.1 "B787" rs787 highRule lowRule dentCtx [highRule, lowRule]
      {} { max_depth_to_thickness_ratio := some 1 } { disposition := some "REPAIR" }
      {} {} { disposition := some "ALLOW_AS_IS" }
      rfl (Or.inl rfl) (by decide) rfl rfl rfl rfl rfl rfl rfl rfl rfl rfl rfl rfl
      rfl rfl rfl rfl).1 rfl,
   priority_scan_order.2 crackCtx crackRule none
     { requires_no_visible_crack := true } {} {}
     ["Condition failed: visible crack present."] rfl rfl rfl rfl⟩

/-- C3 (witness for `null_json_falls_back_malformed_raises`): the empty
conditions document falls back and the malformed column raises. -/
theorem null_json_falls_back_malformed_raises_witness :
    loads ({} : Conditions) Stored.nullOrEmpty = .ok ({} : Conditions) ∧
    loads ({} : Conditions) Stored.malformed = Except.error "json.JSONDecodeError" :=
  ⟨(null_json_falls_back_malformed_raises.1 Conditions {}).1,
   (null_json_falls_back_malformed_raises.1 Conditions {}).2.2⟩

/-- A demo seed header matching `rs787`. -/
def demoSeed : RuleSetSeed :=
  { name := "Demo", aircraft_family := "B787", revision := "DEMO-01" }

/-- A one-rule seed document body. -/
def demoRuleSeed : RuleSeed :=
  { damage_type := "dent", structure_ := "skin", structure_zone := "fuselage" }

/-- C7 (witness for `seed_upsert_wipe_idempotent`): loading a one-rule
document twice into the empty database keeps the count at one and reuses
the rule-set id. -/
theorem seed_upsert_wipe_idempotent_witness :
    (load_upsert_wipe emptyDb demoSeed [demoRuleSeed]).totalRules = 1 ∧
    (load_upsert_wipe (load_upsert_wipe emptyDb demoSeed [demoRuleSeed]).db
      demoSeed [demoRuleSeed]).totalRules = 1 ∧
    (load_upsert_wipe (load_upsert_wipe emptyDb demoSeed [demoRuleSeed]).db
      demoSeed [demoRuleSeed]).ruleSetId =
      (load_upsert_wipe emptyDb demoSeed [demoRuleSeed]).ruleSetId :=
  seed_upsert_wipe_idempotent emptyDb demoSeed [demoRuleSeed]

end SRM

